import Mathlib

/-!
Shallow embedding of `sceptre_cdk_handler/cdk_builder.py`.

Environment-variable mappings (Python dicts of strings) are modelled as
functions `String → Option String`.  Subprocess execution is modelled by an
injected success predicate on command strings (the source injects
`subprocess_run` the same way) together with an event trace recording every
subprocess invocation and the removal of the scoped temporary directory.
Exceptions are modelled with `Except`.
-/

/-- An environment-variable mapping: a Python `Dict[str, str]`. -/
abbrev Dict : Type := String → Option String

/-- A synthesized template document (opaque to this module). -/
abbrev Template : Type := String

/-- Setting a key on a dict: `d[k] = v` (also one keyword of `d.update(...)`). -/
def Dict.set (d : Dict) (k v : String) : Dict :=
  fun x => if x = k then some v else d x

/-- Removing a key from a dict: `d.pop(k, None)`. -/
def Dict.erase (d : Dict) (k : String) : Dict :=
  fun x => if x = k then none else d x

/-- Session credentials as returned by `session.get_credentials()`
(botocore `Credentials`): access key, secret key, optional session token. -/
structure Credentials where
  access_key : String
  secret_key : String
  token : Option String

/-- The slice of a Sceptre `ConnectionManager` the builders read:
`profile`, `region`, `iam_role`, and `_get_session(...).get_credentials()`
as a function of the three arguments the builders pass to it. -/
structure ConnectionManager where
  profile : Option String
  region : String
  iam_role : Option String
  get_session_credentials : Option String → String → Option String → Credentials

/-- Errors raised by the builders (`sceptre.exceptions.SceptreException`,
`TemplateHandlerArgumentsInvalidError`, `subprocess.CalledProcessError` from
`check=True`, a missing stack in `get_stack_by_name`, a missing file). -/
inductive CdkError
  | sceptreException (msg : String)
  | templateHandlerArgumentsInvalid (msg : String)
  | subprocessFailure (command : String)
  | stackNotFound (stack_name : String)
  | fileNotFound (path : String)
deriving DecidableEq

/-- Observable effects of a build: a subprocess run with a command string and
an environment, and the removal of the scoped temporary output directory. -/
inductive Event
  | run (command : String) (env : Dict)
  | removeTmpDir

/-- The contents of a CDK asset manifest: the keys of its `files` mapping (in
dict order, hence without duplicates) and the keys of its `dockerImages`
mapping. -/
structure AssetManifest where
  files : List String
  dockerImages : List String
deriving DecidableEq

/-- An `aws_cdk.cx_api.AssetManifestArtifact`: parsed contents plus the
on-disk path of the manifest file. -/
structure AssetManifestArtifact where
  contents : AssetManifest
  file : String
deriving DecidableEq

/-- An artifact of a cloud assembly: either an asset-manifest artifact or any
other artifact kind. -/
inductive Artifact
  | assetManifest (a : AssetManifestArtifact)
  | other
deriving DecidableEq

/-- An `aws_cdk.cx_api.CloudAssembly`: its artifact list and its synthesized
stacks, looked up by name (`get_stack_by_name`). -/
structure CloudAssembly where
  artifacts : List Artifact
  stack_by_name : String → Option Template

namespace CdkBuilder

/-- `CdkBuilder.STACK_LOGICAL_ID = 'CDKStack'` (cdk_builder.py line 27). -/
def STACK_LOGICAL_ID : String := "CDKStack"

end CdkBuilder

namespace BootstrappedCdkBuilder

/-- `BootstrappedCdkBuilder._get_envs` (cdk_builder.py lines 120-165): copy the
ambient environment, pop `AWS_PROFILE`, resolve the connection manager's
session credentials, overwrite the five AWS variables, then set or remove
`AWS_SESSION_TOKEN` according to whether the credentials carry a token. -/
def get_envs (environment_variables : Dict) (cm : ConnectionManager) : Dict :=
  let envs := environment_variables
  let envs := envs.erase ("AWS_PROFILE")
  let credentials := cm.get_session_credentials cm.profile cm.region cm.iam_role
  let envs := envs.set ("AWS_ACCESS_KEY_ID") credentials.access_key
  let envs := envs.set ("AWS_SECRET_ACCESS_KEY") credentials.secret_key
  let envs := envs.set ("AWS_DEFAULT_REGION") cm.region
  let envs := envs.set ("CDK_DEFAULT_REGION") cm.region
  let envs := envs.set ("AWS_REGION") cm.region
  match credentials.token with
  | none => envs.erase ("AWS_SESSION_TOKEN")
  | some t => envs.set ("AWS_SESSION_TOKEN") t

/-- `BootstrappedCdkBuilder._only_asset_is_template` (lines 167-174): false if
the manifest has docker images, otherwise true iff the list of file keys is
exactly the one expected template filename built from `STACK_LOGICAL_ID`. -/
def only_asset_is_template (asset_artifacts : AssetManifestArtifact) : Bool :=
  let manifest_contents := asset_artifacts.contents
  match manifest_contents.dockerImages with
  | _ :: _ => false
  | [] =>
    let keys := manifest_contents.files
    let expected_template := CdkBuilder.STACK_LOGICAL_ID ++ ".template.json"
    keys == [expected_template]

/-- `BootstrappedCdkBuilder._get_assets_manifest` (lines 94-102): scan the
assembly's artifacts for the first `AssetManifestArtifact`; raise
`SceptreException` if none exists. -/
def get_assets_manifest : List Artifact → Except CdkError AssetManifestArtifact
  | [] => .error (.sceptreException ("CDK Asset manifest artifact not found"))
  | .assetManifest a :: _ => .ok a
  | .other :: rest => get_assets_manifest rest

/-- `BootstrappedCdkBuilder._get_template` (lines 104-105):
`cloud_assembly.get_stack_by_name(STACK_LOGICAL_ID).template`; a missing stack
is an error raised by the CDK lookup. -/
def get_template (cloud_assembly : CloudAssembly) : Except CdkError Template :=
  match cloud_assembly.stack_by_name CdkBuilder.STACK_LOGICAL_ID with
  | none => .error (.stackNotFound CdkBuilder.STACK_LOGICAL_ID)
  | some t => .ok t

/-- `BootstrappedCdkBuilder._publish` (lines 78-92): locate the asset
manifest; if the only asset is the template, return without running anything;
otherwise derive the credential environment and run
`npx cdk-assets -v publish --path <manifest file>` (non-zero exit, decided by
the injected `subprocess_ok`, raises). -/
def publish (environment_variables : Dict) (cm : ConnectionManager)
    (subprocess_ok : String → Bool) (cloud_assembly : CloudAssembly) :
    Except CdkError Unit × List Event :=
  match get_assets_manifest cloud_assembly.artifacts with
  | .error e => (.error e, [])
  | .ok asset_artifacts =>
    if only_asset_is_template asset_artifacts then
      (.ok (), [])
    else
      let envs := get_envs environment_variables cm
      let command := "npx cdk-assets -v publish --path " ++ asset_artifacts.file
      if subprocess_ok command then
        (.ok (), [.run command envs])
      else
        (.error (.subprocessFailure command), [.run command envs])

/-- The tail of `build_template` shared with `BootstraplessCdkBuilder` (which
inherits `_publish` and `_get_template`): publish, then extract the template. -/
def publish_and_extract (environment_variables : Dict) (cm : ConnectionManager)
    (subprocess_ok : String → Bool) (assembly : CloudAssembly) :
    Except CdkError Template × List Event :=
  match publish environment_variables cm subprocess_ok assembly with
  | (.error e, trace) => (.error e, trace)
  | (.ok _, trace) =>
    match get_template assembly with
    | .error e => (.error e, trace)
    | .ok template => (.ok template, trace)

/-- `BootstrappedCdkBuilder.build_template` (lines 55-64): synthesize (the
in-process synthesis instantiates the stack class under `STACK_LOGICAL_ID`;
its outcome, success or raised error, is the injected `synth` applied to that
identifier), then publish, then extract the template. -/
def build_template (environment_variables : Dict) (cm : ConnectionManager)
    (subprocess_ok : String → Bool)
    (synth : String → Except CdkError CloudAssembly) :
    Except CdkError Template × List Event :=
  match synth CdkBuilder.STACK_LOGICAL_ID with
  | .error e => (.error e, [])
  | .ok assembly => publish_and_extract environment_variables cm subprocess_ok assembly

end BootstrappedCdkBuilder

namespace BootstraplessCdkBuilder

/-- `BootstraplessCdkBuilder._synthesize` wrapped into `build_template`
(lines 199-217 with the inherited lines 55-64): constructing
`synthesizer_class(**synthesizer_config)` may raise `TypeError` (modelled by
the `synthesizer_ctor` argument), which is re-raised as
`TemplateHandlerArgumentsInvalidError` before the stack is instantiated and
before any subprocess could run; otherwise the pipeline is the inherited one. -/
def build_template (environment_variables : Dict) (cm : ConnectionManager)
    (subprocess_ok : String → Bool)
    (synthesizer_ctor : Except String Unit)
    (synth : String → Except CdkError CloudAssembly) :
    Except CdkError Template × List Event :=
  match synthesizer_ctor with
  | .error e =>
    (.error (.templateHandlerArgumentsInvalid
      ("Error encountered attempting to instantiate the BootstraplessSynthesizer with the specified deployment config: " ++ e)), [])
  | .ok _ =>
    match synth CdkBuilder.STACK_LOGICAL_ID with
    | .error e => (.error e, [])
    | .ok assembly =>
      BootstrappedCdkBuilder.publish_and_extract environment_variables cm subprocess_ok assembly

end BootstraplessCdkBuilder

namespace NonPythonCdkBuilder

/-- `NonPythonCdkBuilder._get_envs` (cdk_builder.py lines 255-300): textually
the same derivation as the bootstrapped builder's. -/
def get_envs (environment_variables : Dict) (cm : ConnectionManager) : Dict :=
  let envs := environment_variables
  let envs := envs.erase ("AWS_PROFILE")
  let credentials := cm.get_session_credentials cm.profile cm.region cm.iam_role
  let envs := envs.set ("AWS_ACCESS_KEY_ID") credentials.access_key
  let envs := envs.set ("AWS_SECRET_ACCESS_KEY") credentials.secret_key
  let envs := envs.set ("AWS_DEFAULT_REGION") cm.region
  let envs := envs.set ("CDK_DEFAULT_REGION") cm.region
  let envs := envs.set ("AWS_REGION") cm.region
  match credentials.token with
  | none => envs.erase ("AWS_SESSION_TOKEN")
  | some t => envs.set ("AWS_SESSION_TOKEN") t

/-- `NonPythonCdkBuilder._only_asset_is_template` (lines 336-342): false if
`dockerImages` is non-empty, otherwise true iff the list of `files` keys is
exactly `[f'{stack_logical_id}.template.json']`. -/
def only_asset_is_template (assets_dict : AssetManifest) (stack_logical_id : String) : Bool :=
  match assets_dict.dockerImages with
  | _ :: _ => false
  | [] =>
    let keys := assets_dict.files
    let expected_template := stack_logical_id ++ ".template.json"
    keys == [expected_template]

/-- `NonPythonCdkBuilder._create_command` (lines 302-307). -/
def create_command (output_dir : String) (cdk_context : List (String × String))
    (stack_logical_id : String) : String :=
  let command := "npx cdk synth " ++ stack_logical_id ++ " -o " ++ output_dir ++ " "
  cdk_context.foldl (fun command kv => command ++ kv.1 ++ "=" ++ kv.2 ++ " ") command

/-- `NonPythonCdkBuilder._get_assets_manifest` (lines 328-334): raise
`SceptreException` when the manifest file does not exist on disk, otherwise
parse it.  The filesystem is modelled as a partial map from paths to parsed
manifests. -/
def get_assets_manifest (fs_assets : String → Option AssetManifest)
    (assets_filepath : String) : Except CdkError AssetManifest :=
  match fs_assets assets_filepath with
  | none => .error (.sceptreException ("CDK Asset manifest artifact not found"))
  | some assets_dict => .ok assets_dict

/-- `NonPythonCdkBuilder._get_template` (lines 344-346): read and parse the
template file; a missing file raises. -/
def get_template (fs_template : String → Option Template)
    (template_path : String) : Except CdkError Template :=
  match fs_template template_path with
  | none => .error (.fileNotFound template_path)
  | some t => .ok t

/-- `NonPythonCdkBuilder._synthesize` (lines 243-253): derive the credential
environment, build the synth command and run it (`check=True`). -/
def synthesize (environment_variables : Dict) (cm : ConnectionManager)
    (subprocess_ok : String → Bool) (output_dir : String)
    (cdk_context : List (String × String)) (stack_logical_id : String) :
    Except CdkError Unit × List Event :=
  let envs := get_envs environment_variables cm
  let command := create_command output_dir cdk_context stack_logical_id
  if subprocess_ok command then
    (.ok (), [.run command envs])
  else
    (.error (.subprocessFailure command), [.run command envs])

/-- `NonPythonCdkBuilder._publish` (lines 309-326): read the manifest; skip if
the only asset is the template; otherwise derive the credential environment
and run `npx cdk-assets -v publish --path <assets_filepath>`. -/
def publish (environment_variables : Dict) (cm : ConnectionManager)
    (subprocess_ok : String → Bool) (fs_assets : String → Option AssetManifest)
    (assets_filepath : String) (stack_logical_id : String) :
    Except CdkError Unit × List Event :=
  match get_assets_manifest fs_assets assets_filepath with
  | .error e => (.error e, [])
  | .ok assets_manifest =>
    if only_asset_is_template assets_manifest stack_logical_id then
      (.ok (), [])
    else
      let envs := get_envs environment_variables cm
      let command := "npx cdk-assets -v publish --path " ++ assets_filepath
      if subprocess_ok command then
        (.ok (), [.run command envs])
      else
        (.error (.subprocessFailure command), [.run command envs])

/-- The body of the `with TemporaryDirectory() as output_dir:` block of
`NonPythonCdkBuilder.build_template` (lines 236-241): synthesize, publish from
`<output_dir>/<stack_logical_id>.assets.json`, then read the template from
`<output_dir>/<stack_logical_id>.template.json`. -/
def build_template_body (environment_variables : Dict) (cm : ConnectionManager)
    (subprocess_ok : String → Bool) (fs_assets : String → Option AssetManifest)
    (fs_template : String → Option Template) (output_dir : String)
    (cdk_context : List (String × String)) (stack_logical_id : String) :
    Except CdkError Template × List Event :=
  match synthesize environment_variables cm subprocess_ok output_dir cdk_context stack_logical_id with
  | (.error e, strace) => (.error e, strace)
  | (.ok _, strace) =>
    let assets_file := output_dir ++ "/" ++ stack_logical_id ++ ".assets.json"
    match publish environment_variables cm subprocess_ok fs_assets assets_file stack_logical_id with
    | (.error e, ptrace) => (.error e, strace ++ ptrace)
    | (.ok _, ptrace) =>
      let template_file := output_dir ++ "/" ++ stack_logical_id ++ ".template.json"
      match get_template fs_template template_file with
      | .error e => (.error e, strace ++ ptrace)
      | .ok template => (.ok template, strace ++ ptrace)

/-- `NonPythonCdkBuilder.build_template` (lines 234-241): run the body inside
the `TemporaryDirectory` scope.  The context manager removes the directory on
every exit path, normal return or propagated exception, hence the
unconditional trailing `removeTmpDir` event; a raised error passes through
unchanged. -/
def build_template (environment_variables : Dict) (cm : ConnectionManager)
    (subprocess_ok : String → Bool) (fs_assets : String → Option AssetManifest)
    (fs_template : String → Option Template) (output_dir : String)
    (cdk_context : List (String × String)) (stack_logical_id : String) :
    Except CdkError Template × List Event :=
  let result := build_template_body environment_variables cm subprocess_ok fs_assets
    fs_template output_dir cdk_context stack_logical_id
  (result.1, result.2 ++ [Event.removeTmpDir])

end NonPythonCdkBuilder

/-- Modelled from the spec: the template handler that invokes the
out-of-process builder is not part of the sources under verification; per the
spec, `STACK_LOGICAL_ID` is "a fixed, well-known identifier ... constant
across all strategies", so the handler passes `STACK_LOGICAL_ID` as the
`stack_logical_id` argument of `NonPythonCdkBuilder.build_template`. -/
def handler_nonpython_stack_logical_id : String := CdkBuilder.STACK_LOGICAL_ID

/-- A store of Python dict objects, for reasoning about object identity and
mutation: references are allocation indices, `next` is the next fresh
reference. -/
structure Store where
  mem : Nat → Dict
  next : Nat

/-- Dereference a dict object. -/
def Store.read (s : Store) (r : Nat) : Dict := s.mem r

/-- Mutate the dict object behind reference `r` in place. -/
def Store.write (s : Store) (r : Nat) (d : Dict) : Store :=
  ⟨fun i => if i = r then d else s.mem i, s.next⟩

/-- Allocate a fresh dict object (as `dict.copy()` does) and return its
reference. -/
def Store.alloc (s : Store) (d : Dict) : Store × Nat :=
  (⟨fun i => if i = s.next then d else s.mem i, s.next + 1⟩, s.next)

/-- `_get_envs` (cdk_builder.py lines 120-165 and, identically, 255-300) with
Python object identity made explicit: `envs = self._environment_variables.copy()`
allocates a fresh dict, and every subsequent `pop`, `update`, and item
assignment mutates that fresh object in the store.  Returns the final store
and the reference to the result dict. -/
def get_envs_heap (s : Store) (environment_variables_ref : Nat)
    (cm : ConnectionManager) : Store × Nat :=
  let alloc := s.alloc (s.read environment_variables_ref)
  let s1 := alloc.1
  let envs := alloc.2
  let s2 := s1.write envs ((s1.read envs).erase ("AWS_PROFILE"))
  let credentials := cm.get_session_credentials cm.profile cm.region cm.iam_role
  let s3 := s2.write envs ((s2.read envs).set ("AWS_ACCESS_KEY_ID") credentials.access_key)
  let s4 := s3.write envs ((s3.read envs).set ("AWS_SECRET_ACCESS_KEY") credentials.secret_key)
  let s5 := s4.write envs ((s4.read envs).set ("AWS_DEFAULT_REGION") cm.region)
  let s6 := s5.write envs ((s5.read envs).set ("CDK_DEFAULT_REGION") cm.region)
  let s7 := s6.write envs ((s6.read envs).set ("AWS_REGION") cm.region)
  let s8 :=
    match credentials.token with
    | none => s7.write envs ((s7.read envs).erase ("AWS_SESSION_TOKEN"))
    | some t => s7.write envs ((s7.read envs).set ("AWS_SESSION_TOKEN") t)
  (s8, envs)

/-- A concrete connection manager for evaluating the theorems on an input. -/
def sample_cm : ConnectionManager :=
  ⟨none, "eu-west-1", none, fun _ _ _ => ⟨"AKIAEXAMPLE", "SECRETEXAMPLE", none⟩⟩

/-- A concrete ambient environment for evaluating the theorems on an input. -/
def sample_env : Dict := fun _ => none

/-- A concrete one-object store for evaluating the heap theorems. -/
def sample_store : Store := ⟨fun _ => sample_env, 1⟩

/-! ## Theorems -/

/-- C10: the credential-environment derivations of the in-process builder and
the out-of-process builder are equivalent: for every ambient environment and
connection-manager session, `BootstrappedCdkBuilder._get_envs` and
`NonPythonCdkBuilder._get_envs` return equal mappings. -/
theorem claim_C10 (env : Dict) (cm : ConnectionManager) :
    BootstrappedCdkBuilder.get_envs env cm = NonPythonCdkBuilder.get_envs env cm := rfl

/-- C2: the derived child-process environment contains no `AWS_PROFILE`;
contains the session's access key and secret key; contains
`AWS_DEFAULT_REGION`, `CDK_DEFAULT_REGION` and `AWS_REGION` all equal to the
session's region; and its `AWS_SESSION_TOKEN` entry equals the session's
token exactly (absent when there is none).  The same holds for the
out-of-process builder's derivation, which is the identical mapping. -/
theorem claim_C2 (env : Dict) (cm : ConnectionManager) :
    BootstrappedCdkBuilder.get_envs env cm ("AWS_PROFILE") = none
    ∧ BootstrappedCdkBuilder.get_envs env cm ("AWS_ACCESS_KEY_ID")
        = some (cm.get_session_credentials cm.profile cm.region cm.iam_role).access_key
    ∧ BootstrappedCdkBuilder.get_envs env cm ("AWS_SECRET_ACCESS_KEY")
        = some (cm.get_session_credentials cm.profile cm.region cm.iam_role).secret_key
    ∧ BootstrappedCdkBuilder.get_envs env cm ("AWS_DEFAULT_REGION") = some cm.region
    ∧ BootstrappedCdkBuilder.get_envs env cm ("CDK_DEFAULT_REGION") = some cm.region
    ∧ BootstrappedCdkBuilder.get_envs env cm ("AWS_REGION") = some cm.region
    ∧ BootstrappedCdkBuilder.get_envs env cm ("AWS_SESSION_TOKEN")
        = (cm.get_session_credentials cm.profile cm.region cm.iam_role).token
    ∧ NonPythonCdkBuilder.get_envs env cm = BootstrappedCdkBuilder.get_envs env cm := by
  unfold BootstrappedCdkBuilder.get_envs NonPythonCdkBuilder.get_envs
  cases htok : (cm.get_session_credentials cm.profile cm.region cm.iam_role).token with
  | none => simp [htok, Dict.set, Dict.erase]
  | some t => simp [htok, Dict.set, Dict.erase]

/-- C9: deriving the credential environment does not mutate the ambient
environment dict it starts from: for every store, valid reference to the
ambient dict, and connection manager, the ambient object is unchanged after
`_get_envs` runs (all mutations target the fresh copy). -/
theorem claim_C9 (s : Store) (r : Nat) (cm : ConnectionManager) (h : r < s.next) :
    ((get_envs_heap s r cm).1.read r) = s.read r := by
  have hne : r ≠ s.next := Nat.ne_of_lt h
  unfold get_envs_heap
  cases htok : (cm.get_session_credentials cm.profile cm.region cm.iam_role).token with
  | none => simp [htok, Store.alloc, Store.write, Store.read, hne]
  | some t => simp [htok, Store.alloc, Store.write, Store.read, hne]

/-- Witness for C9 at a concrete store, reference and connection manager. -/
theorem claim_C9_witness :
    ((get_envs_heap sample_store 0 sample_cm).1.read 0) = sample_store.read 0 :=
  claim_C9 sample_store 0 sample_cm (by decide)

/-- C8: the logical stack identifier is the single fixed constant
`"CDKStack"`; the in-process builders apply their synthesis and lookup only at
`STACK_LOGICAL_ID` (the classifier compares against the filename built from
it), and the out-of-process builder is invoked by the handler (modelled from
the spec) with the same constant. -/
theorem claim_C8 :
    CdkBuilder.STACK_LOGICAL_ID = "CDKStack"
    ∧ handler_nonpython_stack_logical_id = CdkBuilder.STACK_LOGICAL_ID
    ∧ (∀ (env : Dict) (cm : ConnectionManager) (ok : String → Bool)
        (synth : String → Except CdkError CloudAssembly),
        BootstrappedCdkBuilder.build_template env cm ok synth
          = BootstrappedCdkBuilder.build_template env cm ok
              (fun _ => synth CdkBuilder.STACK_LOGICAL_ID))
    ∧ (∀ (env : Dict) (cm : ConnectionManager) (ok : String → Bool)
        (ctor : Except String Unit) (synth : String → Except CdkError CloudAssembly),
        BootstraplessCdkBuilder.build_template env cm ok ctor synth
          = BootstraplessCdkBuilder.build_template env cm ok ctor
              (fun _ => synth CdkBuilder.STACK_LOGICAL_ID))
    ∧ (∀ (a : AssetManifestArtifact),
        BootstrappedCdkBuilder.only_asset_is_template a
          = NonPythonCdkBuilder.only_asset_is_template a.contents CdkBuilder.STACK_LOGICAL_ID) :=
  ⟨rfl, rfl, fun _ _ _ _ => rfl, fun _ _ _ _ _ => rfl, fun _ => rfl⟩

/-- C7: for the bootstrapless builder, a synthesizer construction failure
(Python `TypeError` from `synthesizer_class(**synthesizer_config)`) makes the
build fail immediately with the distinct `TemplateHandlerArgumentsInvalidError`
constructor, with an empty event trace: no subprocess is spawned. -/
theorem claim_C7 (env : Dict) (cm : ConnectionManager) (ok : String → Bool)
    (e : String) (synth : String → Except CdkError CloudAssembly) :
    BootstraplessCdkBuilder.build_template env cm ok (.error e) synth
      = (.error (.templateHandlerArgumentsInvalid
          ("Error encountered attempting to instantiate the BootstraplessSynthesizer with the specified deployment config: " ++ e)), []) :=
  rfl

/-- A duplicate-free list of keys (a Python dict's key list) equals `[e]`
exactly when its key set is the singleton of `e`. -/
theorem nodup_keys_eq_singleton_iff (l : List String) (e : String) (h : l.Nodup) :
    l = [e] ↔ l.toFinset = {e} := by
  constructor
  · rintro rfl
    simp
  · intro hset
    cases l with
    | nil =>
      exfalso
      have he : e ∈ ([] : List String).toFinset := by
        rw [hset]
        exact Finset.mem_singleton_self e
      simp at he
    | cons a t =>
      have ha : a = e := by
        have : a ∈ ({e} : Finset String) := by
          rw [← hset]
          simp
        exact Finset.mem_singleton.mp this
      cases t with
      | nil => rw [ha]
      | cons b t2 =>
        exfalso
        have hb : b = e := by
          have : b ∈ ({e} : Finset String) := by
            rw [← hset]
            simp
          exact Finset.mem_singleton.mp this
        rw [List.nodup_cons] at h
        apply h.1
        rw [ha, ← hb]
        exact List.mem_cons_self b t2

/-- C1: the only-template classification is false whenever any
container-image asset is present; with no image assets, it is true exactly
when the file-asset key set is the singleton of the expected template
filename; a manifest with no file assets classifies as false; and the
in-process builder's classifier is the same function applied at
`STACK_LOGICAL_ID`. -/
theorem claim_C1 (m : AssetManifest) (stack_logical_id : String) (file : String)
    (hnodup : m.files.Nodup) :
    (m.dockerImages ≠ [] →
      NonPythonCdkBuilder.only_asset_is_template m stack_logical_id = false)
    ∧ (m.dockerImages = [] →
        (NonPythonCdkBuilder.only_asset_is_template m stack_logical_id = true
          ↔ m.files.toFinset = {stack_logical_id ++ ".template.json"}))
    ∧ (m.files = [] → NonPythonCdkBuilder.only_asset_is_template m stack_logical_id = false)
    ∧ BootstrappedCdkBuilder.only_asset_is_template ⟨m, file⟩
        = NonPythonCdkBuilder.only_asset_is_template m CdkBuilder.STACK_LOGICAL_ID := by
  obtain ⟨fs, ds⟩ := m
  simp only [AssetManifest.files] at hnodup
  cases ds with
  | cons x xs =>
    refine ⟨fun _ => rfl, fun habs => absurd habs (List.cons_ne_nil x xs), fun _ => rfl, rfl⟩
  | nil =>
    refine ⟨fun habs => absurd rfl habs, fun _ => ?_, fun hf => ?_, rfl⟩
    · have hred : (NonPythonCdkBuilder.only_asset_is_template ⟨fs, []⟩ stack_logical_id = true)
          ↔ fs = [stack_logical_id ++ ".template.json"] := by
        simp [NonPythonCdkBuilder.only_asset_is_template]
      rw [hred]
      exact nodup_keys_eq_singleton_iff fs _ hnodup
    · subst hf
      rfl

/-- Witness for C1: an image asset forces false; the exact expected singleton
yields true; the empty manifest yields false. -/
theorem claim_C1_witness :
    NonPythonCdkBuilder.only_asset_is_template ⟨["CDKStack.template.json"], ["img1"]⟩ "CDKStack" = false
    ∧ (NonPythonCdkBuilder.only_asset_is_template ⟨["CDKStack.template.json"], []⟩ "CDKStack" = true
        ↔ (["CDKStack.template.json"] : List String).toFinset = {"CDKStack" ++ ".template.json"})
    ∧ NonPythonCdkBuilder.only_asset_is_template ⟨[], []⟩ "CDKStack" = false :=
  ⟨(claim_C1 ⟨["CDKStack.template.json"], ["img1"]⟩ "CDKStack" "m.json" (by decide)).1 (by decide),
   (claim_C1 ⟨["CDKStack.template.json"], []⟩ "CDKStack" "m.json" (by decide)).2.1 (by decide),
   (claim_C1 ⟨[], []⟩ "CDKStack" "m.json" (by decide)).2.2.1 (by decide)⟩

/-- C3: the publish step runs no subprocess when the manifest classifies as
only-template, and otherwise invokes the publish command exactly once,
pointed at the manifest's file path and run with the freshly derived
credential environment — for both the in-process and the out-of-process
builder. -/
theorem claim_C3 (env : Dict) (cm : ConnectionManager) (ok : String → Bool)
    (assembly : CloudAssembly) (artifact : AssetManifestArtifact)
    (fs_assets : String → Option AssetManifest)
    (assets_filepath stack_logical_id : String) (manifest : AssetManifest) :
    (BootstrappedCdkBuilder.get_assets_manifest assembly.artifacts = .ok artifact →
      (BootstrappedCdkBuilder.only_asset_is_template artifact = true →
        BootstrappedCdkBuilder.publish env cm ok assembly = (.ok (), []))
      ∧ (BootstrappedCdkBuilder.only_asset_is_template artifact = false →
        (BootstrappedCdkBuilder.publish env cm ok assembly).2
          = [.run ("npx cdk-assets -v publish --path " ++ artifact.file)
              (BootstrappedCdkBuilder.get_envs env cm)]))
    ∧ (fs_assets assets_filepath = some manifest →
      (NonPythonCdkBuilder.only_asset_is_template manifest stack_logical_id = true →
        NonPythonCdkBuilder.publish env cm ok fs_assets assets_filepath stack_logical_id
          = (.ok (), []))
      ∧ (NonPythonCdkBuilder.only_asset_is_template manifest stack_logical_id = false →
        (NonPythonCdkBuilder.publish env cm ok fs_assets assets_filepath stack_logical_id).2
          = [.run ("npx cdk-assets -v publish --path " ++ assets_filepath)
              (NonPythonCdkBuilder.get_envs env cm)])) := by
  constructor
  · intro hman
    constructor
    · intro ht
      simp [BootstrappedCdkBuilder.publish, hman, ht]
    · intro ht
      cases hc : ok ("npx cdk-assets -v publish --path " ++ artifact.file) with
      | true => simp [BootstrappedCdkBuilder.publish, hman, ht, hc]
      | false => simp [BootstrappedCdkBuilder.publish, hman, ht, hc]
  · intro hman
    constructor
    · intro ht
      simp [NonPythonCdkBuilder.publish, NonPythonCdkBuilder.get_assets_manifest, hman, ht]
    · intro ht
      cases hc : ok ("npx cdk-assets -v publish --path " ++ assets_filepath) with
      | true =>
        simp [NonPythonCdkBuilder.publish, NonPythonCdkBuilder.get_assets_manifest, hman, ht, hc]
      | false =>
        simp [NonPythonCdkBuilder.publish, NonPythonCdkBuilder.get_assets_manifest, hman, ht, hc]

/-- Witness for C3: a template-only manifest publishes nothing; a manifest
with an extra asset publishes exactly once with the derived environment. -/
theorem claim_C3_witness :
    BootstrappedCdkBuilder.publish sample_env sample_cm (fun _ => true)
      ⟨[Artifact.assetManifest ⟨⟨["CDKStack.template.json"], []⟩, "m.json"⟩], fun _ => none⟩
      = (.ok (), [])
    ∧ (NonPythonCdkBuilder.publish sample_env sample_cm (fun _ => true)
        (fun _ => some ⟨["CDKStack.template.json", "asset123.zip"], []⟩)
        ("out/CDKStack.assets.json") ("CDKStack")).2
      = [.run ("npx cdk-assets -v publish --path " ++ "out/CDKStack.assets.json")
          (NonPythonCdkBuilder.get_envs sample_env sample_cm)] :=
  ⟨((claim_C3 sample_env sample_cm (fun _ => true)
      ⟨[Artifact.assetManifest ⟨⟨["CDKStack.template.json"], []⟩, "m.json"⟩], fun _ => none⟩
      ⟨⟨["CDKStack.template.json"], []⟩, "m.json"⟩ (fun _ => none) ("x") ("CDKStack")
      ⟨[], []⟩).1 rfl).1 rfl,
   ((claim_C3 sample_env sample_cm (fun _ => true)
      ⟨[], fun _ => none⟩ ⟨⟨[], []⟩, "x"⟩
      (fun _ => some ⟨["CDKStack.template.json", "asset123.zip"], []⟩)
      ("out/CDKStack.assets.json") ("CDKStack")
      ⟨["CDKStack.template.json", "asset123.zip"], []⟩).2 rfl).2 rfl⟩

/-- If a list of artifacts contains no asset-manifest artifact, the scan of
`_get_assets_manifest` raises the manifest-not-found error. -/
theorem no_manifest_artifact (arts : List Artifact)
    (h : ∀ a, Artifact.assetManifest a ∉ arts) :
    BootstrappedCdkBuilder.get_assets_manifest arts
      = .error (.sceptreException ("CDK Asset manifest artifact not found")) := by
  induction arts with
  | nil => rfl
  | cons x rest ih =>
    cases x with
    | assetManifest a => exact absurd (List.mem_cons_self _ _) (h a)
    | other =>
      rw [BootstrappedCdkBuilder.get_assets_manifest]
      exact ih (fun a ha => h a (List.mem_cons_of_mem _ ha))

/-- C5: a missing asset manifest is a fatal error: the in-process scan errors
when no asset-manifest artifact exists (and the build then fails with that
error), and the out-of-process build errors when
`<output_dir>/<stack_logical_id>.assets.json` is absent from disk. -/
theorem claim_C5 (env : Dict) (cm : ConnectionManager) (ok : String → Bool)
    (synth : String → Except CdkError CloudAssembly)
    (fs_assets : String → Option AssetManifest) (fs_template : String → Option Template)
    (output_dir : String) (cdk_context : List (String × String)) (stack_logical_id : String) :
    (∀ (arts : List Artifact), (∀ a, Artifact.assetManifest a ∉ arts) →
      BootstrappedCdkBuilder.get_assets_manifest arts
        = .error (.sceptreException ("CDK Asset manifest artifact not found")))
    ∧ (∀ assembly, synth CdkBuilder.STACK_LOGICAL_ID = .ok assembly →
        (∀ a, Artifact.assetManifest a ∉ assembly.artifacts) →
        (BootstrappedCdkBuilder.build_template env cm ok synth).1
          = .error (.sceptreException ("CDK Asset manifest artifact not found")))
    ∧ (ok (NonPythonCdkBuilder.create_command output_dir cdk_context stack_logical_id) = true →
        fs_assets (output_dir ++ "/" ++ stack_logical_id ++ ".assets.json") = none →
        (NonPythonCdkBuilder.build_template env cm ok fs_assets fs_template
            output_dir cdk_context stack_logical_id).1
          = .error (.sceptreException ("CDK Asset manifest artifact not found"))) := by
  refine ⟨no_manifest_artifact, ?_, ?_⟩
  · intro assembly hs hnone
    simp [BootstrappedCdkBuilder.build_template, hs, BootstrappedCdkBuilder.publish_and_extract,
      BootstrappedCdkBuilder.publish, no_manifest_artifact assembly.artifacts hnone]
  · intro hok hfs
    simp [NonPythonCdkBuilder.build_template, NonPythonCdkBuilder.build_template_body,
      NonPythonCdkBuilder.synthesize, hok, NonPythonCdkBuilder.publish,
      NonPythonCdkBuilder.get_assets_manifest, hfs]

/-- Witness for C5: an assembly with only non-manifest artifacts and a
filesystem without the manifest file both produce the manifest-not-found
error. -/
theorem claim_C5_witness :
    BootstrappedCdkBuilder.get_assets_manifest [Artifact.other]
      = .error (.sceptreException ("CDK Asset manifest artifact not found"))
    ∧ (BootstrappedCdkBuilder.build_template sample_env sample_cm (fun _ => true)
        (fun _ => .ok ⟨[Artifact.other], fun _ => none⟩)).1
      = .error (.sceptreException ("CDK Asset manifest artifact not found"))
    ∧ (NonPythonCdkBuilder.build_template sample_env sample_cm (fun _ => true)
        (fun _ => none) (fun _ => none) ("outdir") [] ("CDKStack")).1
      = .error (.sceptreException ("CDK Asset manifest artifact not found")) :=
  ⟨(claim_C5 sample_env sample_cm (fun _ => true) (fun _ => .ok ⟨[Artifact.other], fun _ => none⟩)
      (fun _ => none) (fun _ => none) ("outdir") [] ("CDKStack")).1 [Artifact.other]
      (by intro a ha; simp at ha),
   (claim_C5 sample_env sample_cm (fun _ => true) (fun _ => .ok ⟨[Artifact.other], fun _ => none⟩)
      (fun _ => none) (fun _ => none) ("outdir") [] ("CDKStack")).2.1
      ⟨[Artifact.other], fun _ => none⟩ rfl (by intro a ha; simp at ha),
   (claim_C5 sample_env sample_cm (fun _ => true) (fun _ => .ok ⟨[Artifact.other], fun _ => none⟩)
      (fun _ => none) (fun _ => none) ("outdir") [] ("CDKStack")).2.2 rfl rfl⟩

/-- The out-of-process build's trace is the scope body's trace followed by the
removal of the temporary directory. -/
theorem nonpython_build_template_result (env : Dict) (cm : ConnectionManager)
    (ok : String → Bool) (fs_assets : String → Option AssetManifest)
    (fs_template : String → Option Template) (output_dir : String)
    (cdk_context : List (String × String)) (stack_logical_id : String) :
    NonPythonCdkBuilder.build_template env cm ok fs_assets fs_template
        output_dir cdk_context stack_logical_id
      = ((NonPythonCdkBuilder.build_template_body env cm ok fs_assets fs_template
            output_dir cdk_context stack_logical_id).1,
         (NonPythonCdkBuilder.build_template_body env cm ok fs_assets fs_template
            output_dir cdk_context stack_logical_id).2 ++ [Event.removeTmpDir]) := rfl

/-- The last entry of a trace extended with one final event is that event. -/
theorem getLast_append_singleton (l : List Event) (a : Event) :
    (l ++ [a]).getLast? = some a := by
  rw [List.getLast?_concat]

/-- C6: the scoped temporary output directory is removed on every exit path
of the out-of-process `build_template` — the removal is the last event of
every trace, in particular when the synthesis subprocess exits non-zero, in
which case the build fails with the subprocess error. -/
theorem claim_C6 (env : Dict) (cm : ConnectionManager) (ok : String → Bool)
    (fs_assets : String → Option AssetManifest) (fs_template : String → Option Template)
    (output_dir : String) (cdk_context : List (String × String)) (stack_logical_id : String) :
    (NonPythonCdkBuilder.build_template env cm ok fs_assets fs_template
        output_dir cdk_context stack_logical_id).2.getLast? = some Event.removeTmpDir
    ∧ (ok (NonPythonCdkBuilder.create_command output_dir cdk_context stack_logical_id) = false →
        (NonPythonCdkBuilder.build_template env cm ok fs_assets fs_template
            output_dir cdk_context stack_logical_id).1
          = .error (.subprocessFailure
              (NonPythonCdkBuilder.create_command output_dir cdk_context stack_logical_id))
        ∧ Event.removeTmpDir ∈ (NonPythonCdkBuilder.build_template env cm ok fs_assets fs_template
            output_dir cdk_context stack_logical_id).2) := by
  constructor
  · rw [nonpython_build_template_result]
    exact getLast_append_singleton _ _
  · intro hok
    constructor
    · rw [nonpython_build_template_result]
      simp [NonPythonCdkBuilder.build_template_body, NonPythonCdkBuilder.synthesize, hok]
    · rw [nonpython_build_template_result]
      exact List.mem_append_right _ (List.mem_singleton_self _)

/-- Witness for C6: with a failing synthesis subprocess, the build returns the
subprocess error and the trace still ends by removing the temp directory. -/
theorem claim_C6_witness :
    (NonPythonCdkBuilder.build_template sample_env sample_cm (fun _ => false)
        (fun _ => none) (fun _ => none) ("outdir") [] ("CDKStack")).1
      = .error (.subprocessFailure (NonPythonCdkBuilder.create_command ("outdir") [] ("CDKStack")))
    ∧ Event.removeTmpDir ∈ (NonPythonCdkBuilder.build_template sample_env sample_cm (fun _ => false)
        (fun _ => none) (fun _ => none) ("outdir") [] ("CDKStack")).2 :=
  (claim_C6 sample_env sample_cm (fun _ => false) (fun _ => none) (fun _ => none)
    ("outdir") [] ("CDKStack")).2 rfl

/-- C4: `build_template` runs synthesize, publish-if-needed, extract in that
order; it returns the extracted template exactly when every step succeeds;
any step's error — synthesis, publish, or extraction — is propagated
unchanged and no template is returned — for the in-process builder
(synthesis outcome injected at `STACK_LOGICAL_ID`) and the out-of-process
builder (whose trace shows the synth command first, then the publish events,
then the temp-dir removal). -/
theorem claim_C4 (env : Dict) (cm : ConnectionManager) (ok : String → Bool)
    (synth : String → Except CdkError CloudAssembly)
    (fs_assets : String → Option AssetManifest) (fs_template : String → Option Template)
    (output_dir : String) (cdk_context : List (String × String)) (stack_logical_id : String) :
    ((∀ e, synth CdkBuilder.STACK_LOGICAL_ID = .error e →
        BootstrappedCdkBuilder.build_template env cm ok synth = (.error e, []))
      ∧ (∀ assembly e, synth CdkBuilder.STACK_LOGICAL_ID = .ok assembly →
          (BootstrappedCdkBuilder.publish env cm ok assembly).1 = .error e →
          (BootstrappedCdkBuilder.build_template env cm ok synth).1 = .error e)
      ∧ (∀ assembly e, synth CdkBuilder.STACK_LOGICAL_ID = .ok assembly →
          (BootstrappedCdkBuilder.publish env cm ok assembly).1 = .ok () →
          BootstrappedCdkBuilder.get_template assembly = .error e →
          (BootstrappedCdkBuilder.build_template env cm ok synth).1 = .error e)
      ∧ (∀ assembly, synth CdkBuilder.STACK_LOGICAL_ID = .ok assembly →
          (BootstrappedCdkBuilder.build_template env cm ok synth).2
            = (BootstrappedCdkBuilder.publish env cm ok assembly).2)
      ∧ (∀ t, (BootstrappedCdkBuilder.build_template env cm ok synth).1 = .ok t
          ↔ ∃ assembly, synth CdkBuilder.STACK_LOGICAL_ID = .ok assembly
              ∧ (BootstrappedCdkBuilder.publish env cm ok assembly).1 = .ok ()
              ∧ BootstrappedCdkBuilder.get_template assembly = .ok t))
    ∧ ((ok (NonPythonCdkBuilder.create_command output_dir cdk_context stack_logical_id) = false →
          NonPythonCdkBuilder.build_template env cm ok fs_assets fs_template
              output_dir cdk_context stack_logical_id
            = (.error (.subprocessFailure
                  (NonPythonCdkBuilder.create_command output_dir cdk_context stack_logical_id)),
               [.run (NonPythonCdkBuilder.create_command output_dir cdk_context stack_logical_id)
                  (NonPythonCdkBuilder.get_envs env cm), .removeTmpDir]))
      ∧ (ok (NonPythonCdkBuilder.create_command output_dir cdk_context stack_logical_id) = true →
          (NonPythonCdkBuilder.build_template env cm ok fs_assets fs_template
              output_dir cdk_context stack_logical_id).2
            = .run (NonPythonCdkBuilder.create_command output_dir cdk_context stack_logical_id)
                (NonPythonCdkBuilder.get_envs env cm)
              :: ((NonPythonCdkBuilder.publish env cm ok fs_assets
                    (output_dir ++ "/" ++ stack_logical_id ++ ".assets.json") stack_logical_id).2
                  ++ [Event.removeTmpDir])
          ∧ (∀ e, (NonPythonCdkBuilder.publish env cm ok fs_assets
                (output_dir ++ "/" ++ stack_logical_id ++ ".assets.json") stack_logical_id).1
                  = .error e →
              (NonPythonCdkBuilder.build_template env cm ok fs_assets fs_template
                  output_dir cdk_context stack_logical_id).1 = .error e))
      ∧ (∀ e, ok (NonPythonCdkBuilder.create_command output_dir cdk_context stack_logical_id) = true →
          (NonPythonCdkBuilder.publish env cm ok fs_assets
              (output_dir ++ "/" ++ stack_logical_id ++ ".assets.json") stack_logical_id).1
                = .ok () →
          NonPythonCdkBuilder.get_template fs_template
              (output_dir ++ "/" ++ stack_logical_id ++ ".template.json") = .error e →
          (NonPythonCdkBuilder.build_template env cm ok fs_assets fs_template
              output_dir cdk_context stack_logical_id).1 = .error e)
      ∧ (∀ t, (NonPythonCdkBuilder.build_template env cm ok fs_assets fs_template
              output_dir cdk_context stack_logical_id).1 = .ok t
          ↔ ok (NonPythonCdkBuilder.create_command output_dir cdk_context stack_logical_id) = true
            ∧ (NonPythonCdkBuilder.publish env cm ok fs_assets
                (output_dir ++ "/" ++ stack_logical_id ++ ".assets.json") stack_logical_id).1
                  = .ok ()
            ∧ fs_template (output_dir ++ "/" ++ stack_logical_id ++ ".template.json") = some t)) := by
  constructor
  · refine ⟨?_, ?_, ?_, ?_, ?_⟩
    · intro e he
      simp [BootstrappedCdkBuilder.build_template, he]
    · intro assembly e ha hp
      rcases hpub : BootstrappedCdkBuilder.publish env cm ok assembly with ⟨pres, ptrace⟩
      rw [hpub] at hp
      cases pres with
      | ok u => simp at hp
      | error e2 =>
        simp at hp
        subst hp
        simp [BootstrappedCdkBuilder.build_template, ha,
          BootstrappedCdkBuilder.publish_and_extract, hpub]
    · intro assembly e ha hp hgt
      rcases hpub : BootstrappedCdkBuilder.publish env cm ok assembly with ⟨pres, ptrace⟩
      rw [hpub] at hp
      cases pres with
      | error e2 => simp at hp
      | ok u =>
        simp [BootstrappedCdkBuilder.build_template, ha,
          BootstrappedCdkBuilder.publish_and_extract, hpub, hgt]
    · intro assembly ha
      rcases hpub : BootstrappedCdkBuilder.publish env cm ok assembly with ⟨pres, ptrace⟩
      cases pres with
      | error e =>
        simp [BootstrappedCdkBuilder.build_template, ha,
          BootstrappedCdkBuilder.publish_and_extract, hpub]
      | ok u =>
        cases hgt : BootstrappedCdkBuilder.get_template assembly with
        | error e =>
          simp [BootstrappedCdkBuilder.build_template, ha,
            BootstrappedCdkBuilder.publish_and_extract, hpub, hgt]
        | ok t =>
          simp [BootstrappedCdkBuilder.build_template, ha,
            BootstrappedCdkBuilder.publish_and_extract, hpub, hgt]
    · intro t
      constructor
      · intro h
        cases hs : synth CdkBuilder.STACK_LOGICAL_ID with
        | error e => simp [BootstrappedCdkBuilder.build_template, hs] at h
        | ok assembly =>
          refine ⟨assembly, rfl, ?_⟩
          rcases hpub : BootstrappedCdkBuilder.publish env cm ok assembly with ⟨pres, ptrace⟩
          cases pres with
          | error e =>
            simp [BootstrappedCdkBuilder.build_template, hs,
              BootstrappedCdkBuilder.publish_and_extract, hpub] at h
          | ok u =>
            cases hgt : BootstrappedCdkBuilder.get_template assembly with
            | error e =>
              simp [BootstrappedCdkBuilder.build_template, hs,
                BootstrappedCdkBuilder.publish_and_extract, hpub, hgt] at h
            | ok t2 =>
              simp [BootstrappedCdkBuilder.build_template, hs,
                BootstrappedCdkBuilder.publish_and_extract, hpub, hgt] at h
              exact ⟨by simp [hpub], by rw [h]⟩
      · rintro ⟨assembly, hs, hp, hgt⟩
        rcases hpub : BootstrappedCdkBuilder.publish env cm ok assembly with ⟨pres, ptrace⟩
        rw [hpub] at hp
        cases pres with
        | error e => simp at hp
        | ok u =>
          simp [BootstrappedCdkBuilder.build_template, hs,
            BootstrappedCdkBuilder.publish_and_extract, hpub, hgt]
  · refine ⟨?_, ?_, ?_, ?_⟩
    · intro hok
      rw [nonpython_build_template_result]
      simp [NonPythonCdkBuilder.build_template_body, NonPythonCdkBuilder.synthesize, hok]
    · intro hok
      constructor
      · rcases hpub : NonPythonCdkBuilder.publish env cm ok fs_assets
            (output_dir ++ "/" ++ stack_logical_id ++ ".assets.json") stack_logical_id
          with ⟨pres, ptrace⟩
        cases pres with
        | error e =>
          rw [nonpython_build_template_result]
          simp [NonPythonCdkBuilder.build_template_body, NonPythonCdkBuilder.synthesize,
            hok, hpub]
        | ok u =>
          cases hgt : fs_template (output_dir ++ "/" ++ stack_logical_id ++ ".template.json") with
          | none =>
            rw [nonpython_build_template_result]
            simp [NonPythonCdkBuilder.build_template_body, NonPythonCdkBuilder.synthesize,
              hok, hpub, NonPythonCdkBuilder.get_template, hgt]
          | some t =>
            rw [nonpython_build_template_result]
            simp [NonPythonCdkBuilder.build_template_body, NonPythonCdkBuilder.synthesize,
              hok, hpub, NonPythonCdkBuilder.get_template, hgt]
      · intro e hp
        rcases hpub : NonPythonCdkBuilder.publish env cm ok fs_assets
            (output_dir ++ "/" ++ stack_logical_id ++ ".assets.json") stack_logical_id
          with ⟨pres, ptrace⟩
        rw [hpub] at hp
        cases pres with
        | ok u => simp at hp
        | error e2 =>
          simp at hp
          subst hp
          rw [nonpython_build_template_result]
          simp [NonPythonCdkBuilder.build_template_body, NonPythonCdkBuilder.synthesize,
            hok, hpub]
    · intro e hok hp hgt
      rcases hpub : NonPythonCdkBuilder.publish env cm ok fs_assets
          (output_dir ++ "/" ++ stack_logical_id ++ ".assets.json") stack_logical_id
        with ⟨pres, ptrace⟩
      rw [hpub] at hp
      cases pres with
      | error e2 => simp at hp
      | ok u =>
        rw [nonpython_build_template_result]
        simp [NonPythonCdkBuilder.build_template_body, NonPythonCdkBuilder.synthesize,
          hok, hpub, hgt]
    · intro t
      constructor
      · intro h
        rw [nonpython_build_template_result] at h
        simp only [] at h
        cases hok : ok (NonPythonCdkBuilder.create_command output_dir cdk_context stack_logical_id) with
        | false =>
          simp [NonPythonCdkBuilder.build_template_body, NonPythonCdkBuilder.synthesize,
            hok] at h
        | true =>
          refine ⟨rfl, ?_⟩
          rcases hpub : NonPythonCdkBuilder.publish env cm ok fs_assets
              (output_dir ++ "/" ++ stack_logical_id ++ ".assets.json") stack_logical_id
            with ⟨pres, ptrace⟩
          cases pres with
          | error e =>
            simp [NonPythonCdkBuilder.build_template_body, NonPythonCdkBuilder.synthesize,
              hok, hpub] at h
          | ok u =>
            cases hgt : fs_template (output_dir ++ "/" ++ stack_logical_id ++ ".template.json") with
            | none =>
              simp [NonPythonCdkBuilder.build_template_body, NonPythonCdkBuilder.synthesize,
                hok, hpub, NonPythonCdkBuilder.get_template, hgt] at h
            | some t2 =>
              simp [NonPythonCdkBuilder.build_template_body, NonPythonCdkBuilder.synthesize,
                hok, hpub, NonPythonCdkBuilder.get_template, hgt] at h
              exact ⟨by simp [hpub], by rw [h]⟩
      · rintro ⟨hok, hp, hgt⟩
        rcases hpub : NonPythonCdkBuilder.publish env cm ok fs_assets
            (output_dir ++ "/" ++ stack_logical_id ++ ".assets.json") stack_logical_id
          with ⟨pres, ptrace⟩
        rw [hpub] at hp
        cases pres with
        | error e => simp at hp
        | ok u =>
          rw [nonpython_build_template_result]
          simp [NonPythonCdkBuilder.build_template_body, NonPythonCdkBuilder.synthesize,
            hok, hpub, NonPythonCdkBuilder.get_template, hgt]

/-- Witness for C4: a synthesis error propagates unchanged with nothing run; a
fully successful in-process pipeline returns the extracted template; a missing
stack at extraction propagates the lookup error unchanged; a failing synth
subprocess propagates its error out of the out-of-process build; a fully
successful out-of-process pipeline returns the parsed template; a missing
template file propagates the read error unchanged. -/
theorem claim_C4_witness :
    BootstrappedCdkBuilder.build_template sample_env sample_cm (fun _ => true)
        (fun _ => .error (.sceptreException ("boom")))
      = (.error (.sceptreException ("boom")), [])
    ∧ (BootstrappedCdkBuilder.build_template sample_env sample_cm (fun _ => true)
        (fun _ => .ok ⟨[Artifact.assetManifest ⟨⟨["CDKStack.template.json"], []⟩, "m.json"⟩],
          fun _ => some ("TPL")⟩)).1 = .ok ("TPL")
    ∧ (BootstrappedCdkBuilder.build_template sample_env sample_cm (fun _ => true)
        (fun _ => .ok ⟨[Artifact.assetManifest ⟨⟨["CDKStack.template.json"], []⟩, "m.json"⟩],
          fun _ => none⟩)).1 = .error (.stackNotFound ("CDKStack"))
    ∧ NonPythonCdkBuilder.build_template sample_env sample_cm (fun _ => false)
        (fun _ => none) (fun _ => none) ("outdir") [] ("CDKStack")
      = (.error (.subprocessFailure (NonPythonCdkBuilder.create_command ("outdir") [] ("CDKStack"))),
         [.run (NonPythonCdkBuilder.create_command ("outdir") [] ("CDKStack"))
            (NonPythonCdkBuilder.get_envs sample_env sample_cm), .removeTmpDir])
    ∧ (NonPythonCdkBuilder.build_template sample_env sample_cm (fun _ => true)
        (fun _ => some ⟨["CDKStack.template.json"], []⟩) (fun _ => some ("TPL2"))
        ("outdir") [] ("CDKStack")).1 = .ok ("TPL2")
    ∧ (NonPythonCdkBuilder.build_template sample_env sample_cm (fun _ => true)
        (fun _ => some ⟨["CDKStack.template.json"], []⟩) (fun _ => none)
        ("outdir") [] ("CDKStack")).1
      = .error (.fileNotFound ("outdir" ++ "/" ++ "CDKStack" ++ ".template.json")) :=
  ⟨(claim_C4 sample_env sample_cm (fun _ => true) (fun _ => .error (.sceptreException ("boom")))
      (fun _ => none) (fun _ => none) ("outdir") [] ("CDKStack")).1.1
      (.sceptreException ("boom")) rfl,
   ((claim_C4 sample_env sample_cm (fun _ => true)
      (fun _ => .ok ⟨[Artifact.assetManifest ⟨⟨["CDKStack.template.json"], []⟩, "m.json"⟩],
        fun _ => some ("TPL")⟩)
      (fun _ => none) (fun _ => none) ("outdir") [] ("CDKStack")).1.2.2.2.2 ("TPL")).mpr
      ⟨⟨[Artifact.assetManifest ⟨⟨["CDKStack.template.json"], []⟩, "m.json"⟩],
        fun _ => some ("TPL")⟩, rfl, rfl, rfl⟩,
   (claim_C4 sample_env sample_cm (fun _ => true)
      (fun _ => .ok ⟨[Artifact.assetManifest ⟨⟨["CDKStack.template.json"], []⟩, "m.json"⟩],
        fun _ => none⟩)
      (fun _ => none) (fun _ => none) ("outdir") [] ("CDKStack")).1.2.2.1
      ⟨[Artifact.assetManifest ⟨⟨["CDKStack.template.json"], []⟩, "m.json"⟩], fun _ => none⟩
      (.stackNotFound ("CDKStack")) rfl rfl rfl,
   (claim_C4 sample_env sample_cm (fun _ => false) (fun _ => .error (.sceptreException ("x")))
      (fun _ => none) (fun _ => none) ("outdir") [] ("CDKStack")).2.1 rfl,
   ((claim_C4 sample_env sample_cm (fun _ => true) (fun _ => .error (.sceptreException ("x")))
      (fun _ => some ⟨["CDKStack.template.json"], []⟩) (fun _ => some ("TPL2"))
      ("outdir") [] ("CDKStack")).2.2.2.2 ("TPL2")).mpr ⟨rfl, rfl, rfl⟩,
   (claim_C4 sample_env sample_cm (fun _ => true) (fun _ => .error (.sceptreException ("x")))
      (fun _ => some ⟨["CDKStack.template.json"], []⟩) (fun _ => none)
      ("outdir") [] ("CDKStack")).2.2.2.1
      (.fileNotFound ("outdir" ++ "/" ++ "CDKStack" ++ ".template.json")) rfl rfl rfl⟩
